import Mathlib

/-!
Shallow embedding of `src/tools/openrouter_config.py`: a thin retrying
client for the OpenRouter chat-completion HTTP API.

Python exceptions are modelled by `Except String`; a raised exception is
`Except.error msg`, a normal return is `Except.ok`.  The JSON values the
remote service returns are modelled by the inductive `Json`, and the
transport (`requests.post` followed by `response.json()`) is modelled as a
function from the outgoing payload to a `TransportOutcome`: either the call
raises, or it yields a status code together with the parsed body.
-/

namespace OpenRouter

/-- JSON values, modelling Python dicts, lists, strings, numbers, booleans
and `None` as obtained from `response.json()`. -/
inductive Json where
  | str (s : String)
  | num (n : Int)
  | boolean (b : Bool)
  | null
  | arr (elems : List Json)
  | obj (fields : List (String × Json))

/-- Lookup of a key in the field list of a JSON object, modelling Python
dict indexing (first match wins; Python dicts have unique keys). -/
def lookupField : List (String × Json) → String → Option Json
  | [], _ => none
  | (k, v) :: rest, key => if k = key then some v else lookupField rest key

/-- Python `d[key]` on a parsed JSON value: `KeyError` when the key is
absent from a dict, `TypeError` when the value is not a dict. -/
def Json.getField : Json → String → Except String Json
  | .obj fields, key =>
    match lookupField fields key with
    | some v => Except.ok v
    | none => Except.error ("KeyError: " ++ key)
  | _, key => Except.error ("TypeError: value is not subscriptable by key " ++ key)

/-- Python `l[i]` on a parsed JSON value: `IndexError` when the index is out
of range, `TypeError` when the value is not a list. -/
def Json.getIdx : Json → Nat → Except String Json
  | .arr elems, i =>
    match elems.get? i with
    | some v => Except.ok v
    | none => Except.error "IndexError: list index out of range"
  | _, _ => Except.error "TypeError: value is not a list"

/-- The extracted `content` must be usable as a string by the logging slice
`content[:500]` / `len(content)`; a non-string value raises `TypeError`
there (caught by the surrounding except in `get_chat_completion`). -/
def Json.asString : Json → Except String String
  | .str s => Except.ok s
  | _ => Except.error "TypeError: content is not a str"

/-- ChatMessage dataclass of the source (a single `content` field). -/
structure ChatMessage where
  content : String
deriving Repr, DecidableEq

/-- The environment variables the module reads at import time
(`os.getenv` yields `none` for an unset variable). -/
structure Env where
  OPENROUTER_API_KEY : Option String
  OPENROUTER_MODEL : Option String

/-- The process-wide configuration the module holds after a successful
import: `api_key` and `default_model` (module-level variables,
never reassigned). -/
structure ClientConfig where
  api_key : String
  default_model : String
deriving Repr, DecidableEq

/-- Python truthiness of an `Optional[str]`: `None` and the empty string
are falsy, every other string is truthy. -/
def pyStrTruthy : Option String → Bool
  | none => false
  | some s => !s.isEmpty

/-- Module initialization (source lines 86-91):
`api_key = os.getenv("OPENROUTER_API_KEY")`,
`default_model = os.getenv("OPENROUTER_MODEL", "deepseek/deepseek-chat")`,
then `if not api_key: raise ValueError(...)`.  No network call occurs in
this code; it is pure environment reading plus the falsiness check. -/
def initConfig (env : Env) : Except String ClientConfig :=
  let api_key := env.OPENROUTER_API_KEY
  let default_model := env.OPENROUTER_MODEL.getD "deepseek/deepseek-chat"
  if pyStrTruthy api_key then
    Except.ok { api_key := api_key.getD "", default_model := default_model }
  else
    Except.error "OPENROUTER_API_KEY not found in environment variables"

/-- The outgoing JSON request body `{model, messages, temperature}`
(source lines 102-106). -/
structure Payload where
  model : String
  messages : List ChatMessage
  temperature : Rat
deriving Repr, DecidableEq

/-- Python `model or default_model` for `model : Optional[str]`: the
default is chosen when `model` is `None` or the empty string (both falsy),
otherwise the supplied value is used verbatim. -/
def pyOrDefault (model : Option String) (d : String) : String :=
  match model with
  | none => d
  | some s => if s.isEmpty then d else s

/-- Construction of the request body in `call_openrouter_api`
(source lines 102-106): the `model` field is `model or default_model`,
`messages` and `temperature` are passed through as-is. -/
def buildPayload (cfg : ClientConfig) (messages : List ChatMessage)
    (model : Option String) (temperature : Rat) : Payload :=
  { model := pyOrDefault model cfg.default_model
    messages := messages
    temperature := temperature }

/-- Behaviour of one transport round trip (`requests.post` plus
`response.json()`): either some exception is raised (DNS failure, timeout,
connection reset, malformed response body, ...), or a response with a
status code and parsed JSON body is produced. -/
inductive TransportOutcome where
  | raises (e : String)
  | responds (status : Nat) (body : Json)

/-- `call_openrouter_api` (source lines 96-124).  Builds the payload, makes
one transport call, and:
on status 200 returns the parsed body; on any other status logs and
returns `None` (the sentinel, modelled `Except.ok none`); on an exception
logs and re-raises it (`raise e`, modelled `Except.error e`). -/
def call_openrouter_api (cfg : ClientConfig) (transport : Payload → TransportOutcome)
    (messages : List ChatMessage) (model : Option String) (temperature : Rat) :
    Except String (Option Json) :=
  match transport (buildPayload cfg messages model temperature) with
  | .raises e => Except.error e
  | .responds status body =>
    if status = 200 then Except.ok (some body) else Except.ok none

/-- `response["choices"][0]["message"]["content"]` as evaluated inside
`get_chat_completion` (source line 145), including the string use in the
logging slice on lines 147-148. -/
def extractContent (response : Json) : Except String String := do
  let choices ← response.getField "choices"
  let first ← choices.getIdx 0
  let message ← first.getField "message"
  let content ← message.getField "content"
  content.asString

/-- The try-block body of `get_chat_completion` (source lines 133-150):
call the API; if the response is `None` return the sentinel `None`;
otherwise extract the content (a raised `KeyError` / `IndexError` /
`TypeError` propagates out of the body) and return it. -/
def get_chat_completion_try (cfg : ClientConfig) (transport : Payload → TransportOutcome)
    (messages : List ChatMessage) (model : Option String) (temperature : Rat) :
    Except String (Option String) :=
  match call_openrouter_api cfg transport messages model temperature with
  | .error e => Except.error e
  | .ok none => Except.ok none
  | .ok (some data) =>
    match extractContent data with
    | .error e => Except.error e
    | .ok content => Except.ok (some content)

/-- One undecorated invocation of `get_chat_completion`: the catch-all
`except Exception` on lines 152-154 converts every exception raised inside
the try-block into the `None` sentinel, so the body as a whole always
returns normally. -/
def get_chat_completion_once (cfg : ClientConfig) (transport : Payload → TransportOutcome)
    (messages : List ChatMessage) (model : Option String) (temperature : Rat) :
    Option String :=
  match get_chat_completion_try cfg transport messages model temperature with
  | .ok r => r
  | .error _ => none

/-- One attempt as seen by the backoff decorator: since the catch-all
except handles every exception, each attempt is a normal return. -/
def get_chat_completion_attempt (cfg : ClientConfig) (transport : Payload → TransportOutcome)
    (messages : List ChatMessage) (model : Option String) (temperature : Rat) :
    Except String (Option String) :=
  Except.ok (get_chat_completion_once cfg transport messages model temperature)

/-- Core loop of `backoff.on_exception(backoff.expo, Exception, max_tries,
max_time)`.  `attempts i` is the behaviour of the i-th call of the wrapped
function, `durations i` the simulated time the i-th call takes, `waits i`
the (jittered) exponential wait proposed after the i-th failure,
`remaining` the number of retries still allowed by `max_tries`.  On a
normal return the value is returned; on an exception the loop re-raises
when the try budget or the `max_time` ceiling is exhausted, otherwise it
sleeps (the wait is capped so as not to exceed `max_time`) and retries.
Returns the result together with the number of calls made. -/
def runBackoffGo {α : Type} (attempts : Nat → Except String α)
    (durations waits : Nat → Nat) (maxTime : Nat) :
    Nat → Nat → Nat → Except String α × Nat
  | remaining, i, elapsed =>
    let elapsedAfter := elapsed + durations i
    match attempts i with
    | .ok a => (Except.ok a, i + 1)
    | .error e =>
      match remaining with
      | 0 => (Except.error e, i + 1)
      | r + 1 =>
        if maxTime ≤ elapsedAfter then (Except.error e, i + 1)
        else runBackoffGo attempts durations waits maxTime r (i + 1)
          (elapsedAfter + min (waits i) (maxTime - elapsedAfter))

/-- The backoff decorator with a budget of `maxTries` total calls and a
`maxTime` wall-clock ceiling. -/
def runBackoff {α : Type} (maxTries maxTime : Nat) (attempts : Nat → Except String α)
    (durations waits : Nat → Nat) : Except String α × Nat :=
  runBackoffGo attempts durations waits maxTime (maxTries - 1) 0 0

/-- `get_chat_completion` as decorated by
`@backoff.on_exception(backoff.expo, Exception, max_tries=5, max_time=300)`
(source lines 126-154).  `outcomes i` is the transport behaviour offered to
the i-th attempt; the pair returned is (result, number of attempts made);
each attempt performs exactly one transport call. -/
def get_chat_completion (cfg : ClientConfig) (outcomes : Nat → Payload → TransportOutcome)
    (messages : List ChatMessage) (model : Option String) (temperature : Rat)
    (durations waits : Nat → Nat) : Except String (Option String) × Nat :=
  runBackoff 5 300
    (fun i => get_chat_completion_attempt cfg (outcomes i) messages model temperature)
    durations waits

/-- A concrete configuration used for concrete evaluations. -/
def testCfg : ClientConfig :=
  { api_key := "test-key", default_model := "deepseek/deepseek-chat" }

/-- A well-formed 200 response body whose nested content is "Hello!". -/
def validBody : Json :=
  Json.obj [("choices", Json.arr
    [Json.obj [("message", Json.obj [("content", Json.str "Hello!")])]])]

/-- A 200 response body lacking the `choices` field. -/
def noChoicesBody : Json :=
  Json.obj [("id", Json.str "gen-123")]

/-- Shared helper: because every attempt of the decorated function returns
normally (the catch-all except converts raised exceptions to the sentinel),
the backoff loop always stops after the very first attempt with that
attempt's value. -/
theorem first_attempt_result (cfg : ClientConfig) (outcomes : Nat → Payload → TransportOutcome)
    (messages : List ChatMessage) (model : Option String) (temperature : Rat)
    (durations waits : Nat → Nat) :
    get_chat_completion cfg outcomes messages model temperature durations waits
      = (Except.ok (get_chat_completion_once cfg (outcomes 0) messages model temperature), 1) :=
  rfl

/-- C3: for every input and every transport behaviour, a single decorated
invocation of get_chat_completion never propagates an exception and makes
exactly one attempt (hence at most one transport call): the catch-all
except converts every raised exception into the None sentinel, so the
backoff wrapper never observes a failure. -/
theorem gcc_never_raises_one_attempt (cfg : ClientConfig)
    (outcomes : Nat → Payload → TransportOutcome) (messages : List ChatMessage)
    (model : Option String) (temperature : Rat) (durations waits : Nat → Nat) :
    get_chat_completion cfg outcomes messages model temperature durations waits
      = (Except.ok (get_chat_completion_once cfg (outcomes 0) messages model temperature), 1) :=
  first_attempt_result cfg outcomes messages model temperature durations waits

/-- C1 (code evaluation at the failing input): with a transport that raises
on every attempt, the code does NOT re-raise after 5 attempts as the claim
states; get_chat_completion returns the None sentinel after exactly one
attempt, because the catch-all except hides the exception from backoff. -/
theorem all_raise_gives_sentinel_after_one_attempt :
    get_chat_completion testCfg (fun _ _ => TransportOutcome.raises "ConnectionError")
      [{ content := "hi" }] none (7 / 10) (fun _ => 1) (fun _ => 1)
      = (Except.ok none, 1) :=
  rfl

/-- Transport behaviour for the C2 scenario with N = 1: the first attempt
raises, every later attempt returns 200 with a valid body. -/
def raiseThenSucceed : Nat → Payload → TransportOutcome :=
  fun i _ =>
    if i = 0 then TransportOutcome.raises "Timeout"
    else TransportOutcome.responds 200 validBody

/-- C2 (code evaluation at the failing input, N = 1): with a transport that
raises on attempt 1 and succeeds with a valid 200 body on attempt 2, the
code does NOT return the content after 2 attempts as the claim states; it
returns the None sentinel after exactly one attempt, because the catch-all
except hides the first exception from backoff and no retry ever happens. -/
theorem raise_then_succeed_gives_sentinel_after_one_attempt :
    get_chat_completion testCfg raiseThenSucceed
      [{ content := "hi" }] none (7 / 10) (fun _ => 1) (fun _ => 1)
      = (Except.ok none, 1) :=
  rfl

/-- C4: when the transport responds with a status other than 200,
call_openrouter_api returns the None sentinel without raising, and
get_chat_completion returns that sentinel with exactly one attempt made
(no retry). -/
theorem non200_gives_sentinel_no_retry (cfg : ClientConfig)
    (outcomes : Nat → Payload → TransportOutcome) (messages : List ChatMessage)
    (model : Option String) (temperature : Rat) (durations waits : Nat → Nat)
    (status : Nat) (body : Json)
    (h0 : outcomes 0 (buildPayload cfg messages model temperature)
      = TransportOutcome.responds status body)
    (hs : status ≠ 200) :
    call_openrouter_api cfg (outcomes 0) messages model temperature = Except.ok none
    ∧ get_chat_completion cfg outcomes messages model temperature durations waits
      = (Except.ok none, 1) := by
  have hcall : call_openrouter_api cfg (outcomes 0) messages model temperature
      = Except.ok none := by
    unfold call_openrouter_api
    rw [h0]
    simp [hs]
  refine ⟨hcall, ?_⟩
  rw [first_attempt_result]
  unfold get_chat_completion_once get_chat_completion_try
  rw [hcall]

/-- C4 witness: a transport answering 500 on the first attempt. -/
theorem non200_gives_sentinel_no_retry_witness :
    call_openrouter_api testCfg (fun _ => TransportOutcome.responds 500 (Json.str "err"))
      [{ content := "hi" }] none (7 / 10) = Except.ok none
    ∧ get_chat_completion testCfg (fun _ _ => TransportOutcome.responds 500 (Json.str "err"))
      [{ content := "hi" }] none (7 / 10) (fun _ => 1) (fun _ => 1)
      = (Except.ok none, 1) :=
  non200_gives_sentinel_no_retry testCfg
    (fun _ _ => TransportOutcome.responds 500 (Json.str "err"))
    [{ content := "hi" }] none (7 / 10) (fun _ => 1) (fun _ => 1)
    500 (Json.str "err") rfl (by decide)

/-- C5: when the transport responds 200 with a body whose
choices[0].message.content extraction yields the string c,
get_chat_completion returns exactly that string (with one attempt). -/
theorem ok200_returns_content (cfg : ClientConfig)
    (outcomes : Nat → Payload → TransportOutcome) (messages : List ChatMessage)
    (model : Option String) (temperature : Rat) (durations waits : Nat → Nat)
    (body : Json) (c : String)
    (h0 : outcomes 0 (buildPayload cfg messages model temperature)
      = TransportOutcome.responds 200 body)
    (hc : extractContent body = Except.ok c) :
    get_chat_completion cfg outcomes messages model temperature durations waits
      = (Except.ok (some c), 1) := by
  rw [first_attempt_result]
  unfold get_chat_completion_once get_chat_completion_try call_openrouter_api
  rw [h0]
  simp [hc]

/-- C5 witness: the valid body yields its nested content "Hello!". -/
theorem ok200_returns_content_witness :
    get_chat_completion testCfg (fun _ _ => TransportOutcome.responds 200 validBody)
      [{ content := "hi" }] none (7 / 10) (fun _ => 1) (fun _ => 1)
      = (Except.ok (some "Hello!"), 1) :=
  ok200_returns_content testCfg (fun _ _ => TransportOutcome.responds 200 validBody)
    [{ content := "hi" }] none (7 / 10) (fun _ => 1) (fun _ => 1)
    validBody "Hello!" rfl rfl

/-- C6: when the transport responds 200 but the body lacks the expected
fields (extraction raises a shape error), get_chat_completion neither
retries nor propagates the error: it returns the None sentinel with exactly
one attempt made. -/
theorem ok200_malformed_gives_sentinel_no_retry (cfg : ClientConfig)
    (outcomes : Nat → Payload → TransportOutcome) (messages : List ChatMessage)
    (model : Option String) (temperature : Rat) (durations waits : Nat → Nat)
    (body : Json) (e : String)
    (h0 : outcomes 0 (buildPayload cfg messages model temperature)
      = TransportOutcome.responds 200 body)
    (he : extractContent body = Except.error e) :
    get_chat_completion cfg outcomes messages model temperature durations waits
      = (Except.ok none, 1) := by
  rw [first_attempt_result]
  unfold get_chat_completion_once get_chat_completion_try call_openrouter_api
  rw [h0]
  simp [he]

/-- C6 witness: a 200 body without a choices field. -/
theorem ok200_malformed_gives_sentinel_no_retry_witness :
    get_chat_completion testCfg (fun _ _ => TransportOutcome.responds 200 noChoicesBody)
      [{ content := "hi" }] none (7 / 10) (fun _ => 1) (fun _ => 1)
      = (Except.ok none, 1) :=
  ok200_malformed_gives_sentinel_no_retry testCfg
    (fun _ _ => TransportOutcome.responds 200 noChoicesBody)
    [{ content := "hi" }] none (7 / 10) (fun _ => 1) (fun _ => 1)
    noChoicesBody "KeyError: choices" rfl rfl

/-- C7 counterexample: with the empty string supplied as model (a supplied
but falsy value), the outgoing body's model field is NOT the supplied value
verbatim — it is the configured default instead. -/
theorem supplied_model_not_always_verbatim :
    (buildPayload testCfg [{ content := "hi" }] (some "") (7 / 10)).model
        = "deepseek/deepseek-chat"
    ∧ (buildPayload testCfg [{ content := "hi" }] (some "") (7 / 10)).model ≠ "" := by
  constructor
  · rfl
  · decide

/-- C7 amended: when the model parameter is supplied with a non-empty
string it appears verbatim as the model field of the outgoing request
body, overriding the configured default; when it is omitted or supplied as
the empty string, the configured default is used verbatim. -/
theorem model_override_amended (cfg : ClientConfig) (messages : List ChatMessage)
    (temperature : Rat) (model : Option String) :
    ((model = none ∨ model = some "") →
      (buildPayload cfg messages model temperature).model = cfg.default_model)
    ∧ (∀ s, model = some s → s ≠ "" →
      (buildPayload cfg messages model temperature).model = s) := by
  constructor
  · rintro (rfl | rfl) <;> rfl
  · rintro s rfl hs
    simp [buildPayload, pyOrDefault, String.isEmpty_iff, hs]

/-- C7 amended witness: omitted model gives the default, a non-empty
supplied model appears verbatim. -/
theorem model_override_amended_witness :
    (buildPayload testCfg [{ content := "hi" }] none (7 / 10)).model
        = testCfg.default_model
    ∧ (buildPayload testCfg [{ content := "hi" }] (some "my/model") (7 / 10)).model
        = "my/model" :=
  ⟨(model_override_amended testCfg [{ content := "hi" }] (7 / 10) none).1 (Or.inl rfl),
   (model_override_amended testCfg [{ content := "hi" }] (7 / 10) (some "my/model")).2
     "my/model" rfl (by decide)⟩

/-- C8: if OPENROUTER_API_KEY is missing or empty, initialization raises a
configuration error (no network call occurs in initConfig, which is pure);
otherwise initialization succeeds and the resulting immutable configuration
holds exactly the supplied key. -/
theorem init_fails_fast_on_missing_key (env : Env) :
    ((env.OPENROUTER_API_KEY = none ∨ env.OPENROUTER_API_KEY = some "") →
      initConfig env
        = Except.error "OPENROUTER_API_KEY not found in environment variables")
    ∧ (∀ s, env.OPENROUTER_API_KEY = some s → s ≠ "" →
      initConfig env = Except.ok
        { api_key := s
          default_model := env.OPENROUTER_MODEL.getD "deepseek/deepseek-chat" }) := by
  constructor
  · rintro (h | h) <;> simp [initConfig, pyStrTruthy, h, String.isEmpty_iff]
  · rintro s h hs
    simp [initConfig, pyStrTruthy, h, String.isEmpty_iff, hs]

/-- C8 witness: missing key fails, a present non-empty key succeeds. -/
theorem init_fails_fast_on_missing_key_witness :
    initConfig { OPENROUTER_API_KEY := none, OPENROUTER_MODEL := none }
      = Except.error "OPENROUTER_API_KEY not found in environment variables"
    ∧ initConfig { OPENROUTER_API_KEY := some "k", OPENROUTER_MODEL := none }
      = Except.ok { api_key := "k", default_model := "deepseek/deepseek-chat" } :=
  ⟨(init_fails_fast_on_missing_key
      { OPENROUTER_API_KEY := none, OPENROUTER_MODEL := none }).1 (Or.inl rfl),
   (init_fails_fast_on_missing_key
      { OPENROUTER_API_KEY := some "k", OPENROUTER_MODEL := none }).2 "k" rfl (by decide)⟩

/-- C9: when the transport raises an exception, call_openrouter_api
re-raises exactly that exception to its caller; when the transport responds
with any status, call_openrouter_api returns normally — so a raised
transport exception is the only failure call_openrouter_api surfaces as an
exception rather than a sentinel. -/
theorem transport_exception_reraised (cfg : ClientConfig)
    (transport : Payload → TransportOutcome) (messages : List ChatMessage)
    (model : Option String) (temperature : Rat) :
    (∀ e, transport (buildPayload cfg messages model temperature)
        = TransportOutcome.raises e →
      call_openrouter_api cfg transport messages model temperature = Except.error e)
    ∧ (∀ status body, transport (buildPayload cfg messages model temperature)
        = TransportOutcome.responds status body →
      ∃ r, call_openrouter_api cfg transport messages model temperature
        = Except.ok r) := by
  constructor
  · intro e he
    unfold call_openrouter_api
    rw [he]
  · intro status body hr
    unfold call_openrouter_api
    rw [hr]
    by_cases h : status = 200 <;> simp [h]

/-- C9 witness: a raising transport is re-raised, a responding transport
returns normally. -/
theorem transport_exception_reraised_witness :
    call_openrouter_api testCfg (fun _ => TransportOutcome.raises "Timeout")
      [{ content := "hi" }] none (7 / 10) = Except.error "Timeout"
    ∧ ∃ r, call_openrouter_api testCfg (fun _ => TransportOutcome.responds 404 Json.null)
      [{ content := "hi" }] none (7 / 10) = Except.ok r :=
  ⟨(transport_exception_reraised testCfg (fun _ => TransportOutcome.raises "Timeout")
      [{ content := "hi" }] none (7 / 10)).1 "Timeout" rfl,
   (transport_exception_reraised testCfg (fun _ => TransportOutcome.responds 404 Json.null)
      [{ content := "hi" }] none (7 / 10)).2 404 Json.null rfl⟩

/-- C10: with model supplied as the empty string (a supplied but falsy
value), the outgoing body's model field is the configured default, because
the override is selected by Python truthiness (model or default_model). -/
theorem empty_model_uses_default (cfg : ClientConfig) (messages : List ChatMessage)
    (temperature : Rat) :
    (buildPayload cfg messages (some "") temperature).model = cfg.default_model :=
  rfl

end OpenRouter
